import Mathlib

/-!
Verification development for the remittance-assistant repository.

The definitions below are shallow embeddings of the Python sources:
  * `src/mcp-remittance/src/auth/manager.py`        (TokenManager)
  * `src/mcp-remittance/src/api/client.py`          (SasaiAPIClient)
  * `src/mcp-remittance/src/remittance/quotes.py`, `transactions.py`, `countries.py`
  * `src/backend/agent/graph.py` and the workflow subgraphs
JSON values are modelled by `JValue` (floats are out of scope: numeric literals
from the source are modelled as integers, and apostrophes are elided from
modelled prose strings; neither is load-bearing for any property proved here).
-/

namespace Remit

/-- JSON-like values, the shape of gateway payloads and state context blobs. -/
inductive JValue where
  | null
  | bool (b : Bool)
  | num (n : Int)
  | str (s : String)
  | arr (xs : List JValue)
  | obj (fields : List (String × JValue))
deriving Repr

/-- Python truthiness of an optional string (`if x:`): present and non-empty. -/
def truthyOpt : Option String → Bool
  | some s => s ≠ ""
  | none => false

/-! ## Token Manager — `src/mcp-remittance/src/auth/manager.py` -/

/-- The mutable state of `TokenManager`: the feature flag `_enabled`
    (`SasaiConfig.USE_TOKEN_MANAGER`) and `_current_token`.
    (`_token_metadata` is not modelled: no claim touches it.) -/
structure TokenManagerState where
  enabled : Bool
  current : Option String
deriving Repr, DecidableEq

/-- `TokenManager.set_token`: no-op when disabled, else store the token. -/
def set_token (st : TokenManagerState) (token : String) : TokenManagerState :=
  if !st.enabled then st else { st with current := some token }

/-- `TokenManager.get_token`: a truthy external token always wins; when the
    manager is disabled and no external token is given, return `none`. -/
def get_token (st : TokenManagerState) (external_token : Option String) : Option String :=
  if truthyOpt external_token then external_token
  else if !st.enabled then none
  else st.current

/-- `TokenManager.has_token`: truthy external token is always available; when
    disabled only external tokens count; else `_current_token is not None`. -/
def has_token (st : TokenManagerState) (external_token : Option String) : Bool :=
  if truthyOpt external_token then true
  else if !st.enabled then false
  else st.current.isSome

/-- `TokenManager.clear_token`: returns whether a token was present and the
    successor state; a no-op returning `false` when disabled. -/
def clear_token (st : TokenManagerState) : Bool × TokenManagerState :=
  if !st.enabled then (false, st)
  else (st.current.isSome, { st with current := none })

/-! ## Gateway Client — `src/mcp-remittance/src/api/client.py` -/

/-- Lookup in a JSON object field list (Python `dict.get`: first match / None). -/
def jLookup (fields : List (String × JValue)) (k : String) : Option JValue :=
  (fields.find? (fun p => p.1 = k)).map (fun p => p.2)

/-- Rough model of Python `str()` rendering of a JSON value (only used to build
    diagnostic message text, which no claim inspects structurally). -/
def jRenderTop : JValue → String
  | .null => "None"
  | .bool b => if b then "True" else "False"
  | .num n => toString n
  | .str s => s
  | .arr _ => "<list>"
  | .obj _ => "<dict>"

/-- The error classes of `core/exceptions.py`. There is no NotFound class:
    unmapped statuses (404 included) raise the base `SasaiAPIError`.
    `validation` carries the optional offending `field` from the body;
    `rateLimit` carries the optional parsed retry-after value. -/
inductive ErrorKind where
  | sasaiAPIError
  | authenticationError
  | tokenExpired
  | apiTimeout
  | network
  | validation (field : Option JValue)
  | rateLimit (retryAfter : Option Int)
  | server
deriving Repr

/-- A raised typed error: its class, message, and the `status_code` /
    `endpoint` attributes of `SasaiAPIError` (None when not supplied). -/
structure APIError where
  kind : ErrorKind
  message : String
  status_code : Option Nat
  endpoint : Option String
deriving Repr

/-- The normalized success envelope returned by `_handle_response`. -/
structure Envelope where
  success : Bool
  data : JValue
  status_code : Nat
  endpoint : String
deriving Repr

/-- An HTTP response as `_handle_response` sees it: status, raw body text,
    the result of `response.json()` (`none` models a parse failure), the
    `retry-after` header if present, and `response.url`. -/
structure HttpResponse where
  status_code : Nat
  text : String
  jsonBody : Option JValue
  retryAfterHeader : Option String
  url : String
deriving Repr

/-- Python `str.strip()` (whitespace at both ends). -/
def pyStrip (s : String) : String := s.trim

/-- The message of a 400 error: `Bad request: ` + body `message` key when the
    body parsed to a dict, else the raw text (or the default when empty). -/
def message400 (r : HttpResponse) : String :=
  match r.jsonBody with
  | some (.obj fs) =>
      "Bad request: " ++ (match jLookup fs "message" with
        | some v => jRenderTop v
        | none => "Bad request")
  | _ => "Bad request: " ++ (if r.text = "" then "Bad request" else r.text)

/-- The `field` attribute of a 400 ValidationError: the body `field` key when
    the body parsed to a dict (a `.get` on a non-dict raises and is caught,
    leaving the field `None`). -/
def field400 (r : HttpResponse) : Option JValue :=
  match r.jsonBody with
  | some (.obj fs) => jLookup fs "field"
  | _ => none

/-- The message of the generic error branch: the body `message` key when the
    body parsed to a dict, else `HTTP <status>`. -/
def messageOther (r : HttpResponse) : String :=
  match r.jsonBody with
  | some (.obj fs) =>
      "API request failed: " ++ (match jLookup fs "message" with
        | some v => jRenderTop v
        | none => "HTTP " ++ toString r.status_code)
  | _ => "API request failed: HTTP " ++ toString r.status_code

/-- `SasaiAPIClient._handle_response`, translated branch by branch.
    2xx builds the success envelope (empty body becomes null data, a non-JSON
    body becomes a message object); 401/400/429/>=500 raise their typed
    errors; 404 and every other status raise the base `SasaiAPIError`.
    (Python `int()` on the retry-after header is modelled by `String.toInt?`.) -/
def handleResponse (r : HttpResponse) (endpoint : String) : Except APIError Envelope :=
  if 200 ≤ r.status_code ∧ r.status_code < 300 then
    let response_data : JValue :=
      if pyStrip r.text = "" then .null
      else match r.jsonBody with
        | some v => v
        | none => .obj [("message", .str r.text)]
    .ok { success := true, data := response_data,
          status_code := r.status_code, endpoint := r.url }
  else if r.status_code = 401 then
    .error { kind := .tokenExpired,
             message := "Authentication failed. Token may be expired. Please call generate_token again.",
             status_code := some r.status_code, endpoint := some endpoint }
  else if r.status_code = 400 then
    .error { kind := .validation (field400 r), message := message400 r,
             status_code := some r.status_code, endpoint := some endpoint }
  else if r.status_code = 404 then
    .error { kind := .sasaiAPIError,
             message := "API endpoint not found: " ++ endpoint,
             status_code := some r.status_code, endpoint := some endpoint }
  else if r.status_code = 429 then
    .error { kind := .rateLimit (r.retryAfterHeader.bind String.toInt?),
             message := "Rate limit exceeded. Please wait before making more requests.",
             status_code := some r.status_code, endpoint := some endpoint }
  else if 500 ≤ r.status_code then
    .error { kind := .server,
             message := "Server error: Payment gateway is experiencing issues (Status: "
                        ++ toString r.status_code ++ ")",
             status_code := some r.status_code, endpoint := some endpoint }
  else
    .error { kind := .sasaiAPIError, message := messageOther r,
             status_code := some r.status_code, endpoint := some endpoint }

/-- The fate of the underlying HTTP call in `make_authenticated_request`:
    a response arrived, the request timed out, or the connection failed. -/
inductive RequestOutcome where
  | response (r : HttpResponse)
  | timedOut
  | connectionFailed (detail : String)
deriving Repr

/-- `SasaiAPIClient.make_authenticated_request`: the auth gate, then response
    handling / timeout / network classification (the happy-path HTTP verbs all
    converge on `_handle_response`). -/
def make_authenticated_request (token : Option String) (require_auth : Bool)
    (endpoint : String) (timeoutSecs : Nat) (outcome : RequestOutcome) :
    Except APIError Envelope :=
  if require_auth ∧ truthyOpt token = false then
    .error { kind := .authenticationError,
             message := "Authentication token required. Please call generate_token first.",
             status_code := none, endpoint := none }
  else
    match outcome with
    | .response r => handleResponse r endpoint
    | .timedOut =>
        .error { kind := .apiTimeout,
                 message := "Request timeout: API did not respond within "
                            ++ toString timeoutSecs ++ " seconds",
                 status_code := none, endpoint := some endpoint }
    | .connectionFailed detail =>
        .error { kind := .network,
                 message := "Network error: Unable to connect to payment gateway - " ++ detail,
                 status_code := none, endpoint := some endpoint }

/-- The class of the error raised, if the call raised. -/
def raisedKind : Except APIError Envelope → Option ErrorKind
  | .error e => some e.kind
  | .ok _ => none

/-- The `status_code` attribute of the error raised, if the call raised. -/
def raisedStatus : Except APIError Envelope → Option (Option Nat)
  | .error e => some e.status_code
  | .ok _ => none

/-- The `endpoint` attribute of the error raised, if the call raised. -/
def raisedEndpoint : Except APIError Envelope → Option (Option String)
  | .error e => some e.endpoint
  | .ok _ => none

/-! ## Transaction pipeline — `src/mcp-remittance/src/remittance/` -/

/-- A gateway request: HTTP verb, path under the base URL, payload field names. -/
structure GatewayRequest where
  method : String
  path : String
  payloadKeys : List String
deriving Repr, DecidableEq

/-- The parameter names of `transactions.execute_remittance_transaction`
    (its full signature, `transactions.py` lines 19–26). -/
def execute_remittance_transaction_params : List String :=
  ["beneficiary_id", "calculation_id", "payment_method_id",
   "reason_for_transfer", "source_of_funds", "ctx"]

/-- Its parameters without a default value (must be supplied by any call). -/
def execute_remittance_transaction_required : List String :=
  ["beneficiary_id", "calculation_id"]

/-- The keyword arguments the `execute_remittance_transaction` MCP tool passes
    to that function (`countries.py` lines 489–492). -/
def execute_tool_call_kwargs : List String :=
  ["transaction_id", "payment_method_code"]

/-- Python keyword-call validity for a signature without `**kwargs`:
    every keyword must name a parameter, and every parameter without a
    default must receive a value; otherwise the call raises `TypeError`. -/
def pyKeywordCallOk (params required kwargs : List String) : Bool :=
  kwargs.all (fun k => params.contains k) &&
  required.all (fun p => kwargs.contains p)

/-- The gateway request `transactions.execute_remittance_transaction` issues
    when it runs: `client.execute_transaction` POSTs the five-field payload
    built at `transactions.py` lines 112–118 to `/remittance/v1/transaction`. -/
def execute_transaction_request : GatewayRequest :=
  { method := "POST", path := "/remittance/v1/transaction",
    payloadKeys := ["reasonForTransfer", "sourceOfFunds", "beneficiaryId",
                    "calculationId", "paymentMethodId"] }

/-- The method names defined on `SasaiAPIClient` (`api/client.py`). -/
def sasaiAPIClientMethods : List String :=
  ["__init__", "make_authenticated_request", "_handle_response",
   "get", "post", "put", "delete", "patch",
   "get_recipient_list", "calculate_rate", "execute_transaction"]

/-- Outcome of one quote/transaction tool invocation: the `success` flag of the
    returned dict, its `error` text, the gateway request actually issued (if
    any), and the request payload the function built. -/
structure QuoteOutcome where
  success : Bool
  error : Option String
  request : Option GatewayRequest
  payload : List (String × String)
deriving Repr, DecidableEq

/-- `quotes.generate_remittance_quote_from_calculation`: builds the payload
    (lines 251–257), then calls `client.generate_quote`. `SasaiAPIClient`
    defines no such method, so the call raises `AttributeError`, which the
    enclosing `try` converts into the failure dict (lines 269–274); no POST is
    ever issued. The then-branch records what the documented behaviour (POST
    to `/remittance/v1/transaction`) would have been. -/
def generate_remittance_quote_from_calculation
    (beneficiary_id calculation_id payment_method_id
     reason_for_transfer source_of_funds : String) : QuoteOutcome :=
  let payload := [("reasonForTransfer", reason_for_transfer),
                  ("sourceOfFunds", source_of_funds),
                  ("beneficiaryId", beneficiary_id),
                  ("calculationId", calculation_id),
                  ("paymentMethodId", payment_method_id)]
  if sasaiAPIClientMethods.contains "generate_quote" then
    { success := true, error := none,
      request := some { method := "POST", path := "/remittance/v1/transaction",
                        payloadKeys := payload.map Prod.fst },
      payload := payload }
  else
    { success := false,
      error := some "Failed to generate quote: SasaiAPIClient object has no attribute generate_quote",
      request := none, payload := payload }

/-! ### Recipient data model (the shape in `get_recipient_list` responses,
    as documented in the `quotes.py` / `countries.py` docstrings) -/

/-- One entry of an account `linkedProducts` array. -/
structure LinkedProduct where
  productId : Nat
  accountName : String
deriving Repr, DecidableEq

/-- One payment sub-account of a recipient. -/
structure BeneficiaryAccount where
  id : String
  beneficiaryPayoutMethod : String
  linkedProducts : List LinkedProduct
deriving Repr, DecidableEq

/-- A saved recipient: top-level `beneficiaryId` plus its sub-accounts. -/
structure Recipient where
  beneficiaryId : String
  firstName : String
  accounts : List BeneficiaryAccount
deriving Repr, DecidableEq

/-- The selection rule stated by the spec (and by the source docstrings):
    scan the recipient accounts for the one whose `linkedProducts` carries the
    rate-lock `productId`, and use that account id. Stated here only to be
    compared with what the code actually does — no code path computes this. -/
def specSelectBeneficiaryAccount (r : Recipient) (productId : Nat) : Option String :=
  (r.accounts.find? (fun a => a.linkedProducts.any (fun lp => lp.productId = productId))).map
    (fun a => a.id)

/-- The example recipient from the source docstrings: top-level id `12345`,
    an EcoCash account `77192529` linked to product 629 and a Cash Pickup
    account `77192530` linked to product 12. -/
def exampleRecipient : Recipient :=
  { beneficiaryId := "12345", firstName := "John",
    accounts :=
      [ { id := "77192529", beneficiaryPayoutMethod := "EcoCash",
          linkedProducts := [{ productId := 629, accountName := "EcoCash" }] },
        { id := "77192530", beneficiaryPayoutMethod := "Cash Pickup",
          linkedProducts := [{ productId := 12, accountName := "Cash" }] } ] }

/-! ## Conversation state machine — `src/backend/agent/graph.py`,
    `src/backend/agent/workflows/subgraphs/` -/

/-- A tool call attached to an AI message (LangChain `tool_calls` entry:
    the arguments object is not modelled, no claim inspects it). -/
structure ToolCall where
  id : String
  name : String
deriving Repr, DecidableEq

/-- LangChain messages as the graph discriminates them. -/
inductive Msg where
  | human (content : String)
  | ai (content : String) (tool_calls : List ToolCall)
  | toolMsg (tool_call_id : String) (name : String) (content : String)
  | system (content : String)
deriving Repr, DecidableEq

/-- The content of a message. -/
def msgContent : Msg → String
  | .human c => c
  | .ai c _ => c
  | .toolMsg _ _ c => c
  | .system c => c

/-- `isinstance(msg, HumanMessage)`. -/
def isHumanMsg : Msg → Bool
  | .human _ => true
  | _ => false

/-- `isinstance(msg, ToolMessage)`. -/
def isToolMsg : Msg → Bool
  | .toolMsg _ _ _ => true
  | _ => false

/-- `isinstance(msg, AIMessage) and msg.tool_calls` (non-empty). -/
def aiHasToolCalls : Msg → Bool
  | .ai _ (_ :: _) => true
  | _ => false

/-- `AgentState` (`engine/state.py`): message history plus the workflow
    tracking fields and per-workflow context blobs. -/
structure AgentState where
  messages : List Msg
  current_workflow : Option String
  workflow_step : Option String
  transaction_context : Option JValue
  refund_context : Option JValue
  loan_context : Option JValue
  card_context : Option JValue
  financial_insights_context : Option JValue
  user_id : Option String
deriving Repr

/-- Python `needle in hay` on strings, as character-list scanning. -/
def listContainsSub (needle : List Char) : List Char → Bool
  | [] => needle.isEmpty
  | c :: rest => needle.isPrefixOf (c :: rest) || listContainsSub needle rest

/-- Python `needle in hay` for strings. -/
def strContainsSub (hay needle : String) : Bool :=
  listContainsSub needle.data hay.data

/-- Python `s.startswith(p)`. -/
def pyStartsWith (s p : String) : Bool :=
  p.data.isPrefixOf s.data

/-- The keyword tables of `detect_workflow_intent`
    (`workflows/subgraphs/__init__.py`), in source priority order. -/
def transactionHelpKeywords : List String :=
  ["help with transaction", "transaction issue", "payment problem",
   "transaction to", "payment to"]

def financialInsightsKeywords : List String :=
  ["financial insights", "analyze", "analyse", "insights", "cash flow",
   "spending analysis", "incoming analysis", "investment analysis",
   "analyze incoming", "analyze spends", "analyze investment",
   "show insights", "financial overview", "spending breakdown"]

def refundKeywords : List String :=
  ["refund", "money back", "return payment", "get refund"]

def loanKeywords : List String :=
  ["loan", "borrow", "credit", "apply for loan", "loan application"]

def cardKeywords : List String :=
  ["card", "debit card", "credit card", "card blocked", "card not working"]

def generalKeywords : List String :=
  ["help", "question", "enquiry", "information", "how to"]

/-- `detect_workflow_intent`: lowercase the message, test the keyword sets in
    priority order, return the first matching workflow name. -/
def detect_workflow_intent (user_message : String) : Option String :=
  let ul := user_message.toLower
  if transactionHelpKeywords.any (fun kw => strContainsSub ul kw) then some "transaction_help"
  else if financialInsightsKeywords.any (fun kw => strContainsSub ul kw) then some "financial_insights"
  else if refundKeywords.any (fun kw => strContainsSub ul kw) then some "refund"
  else if loanKeywords.any (fun kw => strContainsSub ul kw) then some "loan_enquiry"
  else if cardKeywords.any (fun kw => strContainsSub ul kw) then some "card_issue"
  else if generalKeywords.any (fun kw => strContainsSub ul kw) then some "general_enquiry"
  else none

/-- The content of the last `HumanMessage`, scanning from the end. -/
def lastHumanContent (l : List Msg) : Option String :=
  (l.reverse.find? isHumanMsg).map msgContent

/-- The welcome message emitted on a turn with no user messages. -/
def welcomeContent : String := "How can I help you today?"

/-- `detect_intent_node` (`graph.py` lines 160–207): with no user messages,
    append the welcome message and return; with an active workflow, return
    unchanged; otherwise scan the last user message and set
    `current_workflow` on a keyword match. -/
def detect_intent_node (s : AgentState) : AgentState :=
  if (s.messages.filter isHumanMsg).length = 0 then
    { s with messages := s.messages ++ [Msg.ai welcomeContent []] }
  else if truthyOpt s.current_workflow then s
  else
    match lastHumanContent s.messages with
    | some m =>
        if m ≠ "" then
          match detect_workflow_intent m with
          | some w => { s with current_workflow := some w }
          | none => s
        else s
    | none => s

/-- `route_after_intent` (`graph.py` lines 438–448): route to the active
    workflow when one is set and not completed, else to `chat_node`. Its
    conditional-edge map sends every outcome to a node — there is no END
    target here. -/
def route_after_intent (s : AgentState) : String :=
  match s.current_workflow with
  | some w => if w ≠ "" ∧ s.workflow_step ≠ some "completed" then w else "chat_node"
  | none => "chat_node"

/-- Routing targets after `chat_node`. -/
inductive ChatRoute where
  | remittanceTools
  | ticketConfirmation
  | finish
deriving Repr, DecidableEq

/-- `route_after_chat` (`graph.py` lines 420–435): inspect the last message;
    an AI message whose FIRST tool call is named `create_ticket` goes to
    confirmation, any other tool call goes to tool execution, otherwise END. -/
def route_after_chat (s : AgentState) : ChatRoute :=
  match s.messages.getLast? with
  | some (Msg.ai _ (tc :: _)) =>
      if tc.name = "create_ticket" then .ticketConfirmation else .remittanceTools
  | _ => .finish

/-- Routing targets after `ticket_confirmation`. -/
inductive ConfirmRoute where
  | performTicket
  | finish
deriving Repr, DecidableEq

/-- `route_after_confirmation` (`graph.py` lines 451–459): a resume
    `ToolMessage` that is exactly CONFIRM or CANCEL, or CONFIRM-prefixed,
    goes to `perform_ticket`; anything else ends the turn. -/
def route_after_confirmation (s : AgentState) : ConfirmRoute :=
  match s.messages.getLast? with
  | some (Msg.toolMsg _ _ content) =>
      if content = "CONFIRM" ∨ content = "CANCEL" ∨ pyStartsWith content "CONFIRM" = true
      then .performTicket else .finish
  | _ => .finish

/-! ### The TICKET id regex and `perform_ticket_node` -/

/-- The literal head of the regex `TICKET-` followed by digits. -/
def ticketHeadChars : List Char := ['T', 'I', 'C', 'K', 'E', 'T', '-']

/-- Whether the regex `TICKET-` + digit can match at the head of `l`. -/
def ticketMatchAt (l : List Char) : Bool :=
  ticketHeadChars.isPrefixOf l &&
  (match l.drop 7 with
   | c :: _ => c.isDigit
   | [] => false)

/-- The maximal leading run of digits (the greedy `d+`). -/
def takeDigits : List Char → List Char
  | [] => []
  | c :: rest => if c.isDigit then c :: takeDigits rest else []

/-- Whether the regex `TICKET-` + digits matches anywhere in `l`. -/
def hasTicketPattern : List Char → Bool
  | [] => false
  | c :: rest => ticketMatchAt (c :: rest) || hasTicketPattern rest

/-- `re.search(TICKET- + digits, l)`: the leftmost match, taken greedily. -/
def extractTicketMatch : List Char → Option (List Char)
  | [] => none
  | c :: rest =>
      if ticketMatchAt (c :: rest) then
        some (ticketHeadChars ++ takeDigits ((c :: rest).drop 7))
      else extractTicketMatch rest

/-- The content of the last `ToolMessage`, scanning from the end. -/
def lastToolMsgContent (l : List Msg) : Option String :=
  (l.reverse.find? isToolMsg).map msgContent

/-- The last AI message carrying tool calls, scanning from the end. -/
def lastAIWithToolCalls (l : List Msg) : Option Msg :=
  (l.reverse.find? aiHasToolCalls)

/-- The first `create_ticket` tool call of an AI message, if any. -/
def msgCreateTicketCall : Msg → Option ToolCall
  | .ai _ tcs => tcs.find? (fun tc => tc.name = "create_ticket")
  | _ => none

/-- The search of `perform_ticket_node` (lines 91–100): the most recent AI
    message holding a `create_ticket` tool call, and that call. -/
def findCreateTicketCall (l : List Msg) : Option ToolCall :=
  l.reverse.findSome? msgCreateTicketCall

/-- The cancellation message appended on CANCEL. -/
def cancelContent : String :=
  "Ticket creation cancelled. Is there anything else I can help you with?"

/-- The error message appended when no original ticket request is found. -/
def ticketErrorContent : String :=
  "I encountered an error while creating your ticket. Please try again or contact support directly."

/-- The success message (lines 139–145), embedding the extracted ticket id. -/
def successContent (ticketId : String) : String :=
  "✅ Your support request has been successfully submitted!\n\n📋 Ticket ID: "
  ++ ticketId ++
  "\n\nPlease save this ticket ID for your records. You can use it to track the status of your request. Our support team will review your request and get back to you shortly. Is there anything else I can help you with?"

/-- `perform_ticket_node` (`graph.py` lines 53–157), with the text returned by
    the remote `create_ticket` MCP call passed in as `mcpResult`. Returns the
    successor state and whether the ticket tool was actually invoked.
    CANCEL appends only the cancellation message; CONFIRM(-prefixed) invokes
    the tool, appends the `ToolMessage`, extracts `TICKET-` + digits from the
    result (default `N/A`) and appends the success message; a missing original
    tool call raises, which the `except` turns into the error message. -/
def perform_ticket_node (s : AgentState) (mcpResult : String) : AgentState × Bool :=
  match lastToolMsgContent s.messages, lastAIWithToolCalls s.messages with
  | some tm, some _ =>
      if tm = "CANCEL" then
        ({ s with messages := s.messages ++ [Msg.ai cancelContent []] }, false)
      else if tm = "CONFIRM" ∨ pyStartsWith tm "CONFIRM" = true then
        match findCreateTicketCall s.messages with
        | some tc =>
            let ticketResult := if mcpResult = "" then "Ticket created." else mcpResult
            let ticketId : String :=
              match extractTicketMatch ticketResult.data with
              | some t => String.mk t
              | none => "N/A"
            ({ s with messages := s.messages ++
                 [Msg.toolMsg tc.id "create_ticket" ticketResult,
                  Msg.ai (successContent ticketId) []] }, true)
        | none =>
            ({ s with messages := s.messages ++ [Msg.ai ticketErrorContent []] }, false)
      else (s, false)
  | _, _ => (s, false)

/-- The `create_ticket` tool of `agent/tools.py` (lines 114–125): its result
    text for the random five-digit number `n`. -/
def create_ticket_result (n : Nat) : String :=
  "Support ticket TICKET-" ++ Nat.repr n ++
  " created successfully. Our team will get back to you soon."

/-! ### Guided-workflow subgraph nodes -/

/-- Python truthiness of `current_workflow` as `detect_intent_node` tests it. -/
def currentWorkflowActive (s : AgentState) : Bool :=
  truthyOpt s.current_workflow

/-- The refund context dict set by `summarize_refund_node`. -/
def refundContextJson : JValue :=
  .obj [("refund_eligible_transactions", .arr
    [.obj [("id", .str "txn_1"), ("merchant", .str "Coffee Shop"),
           ("amount", .num 50), ("date", .str "2025-11-22"),
           ("refund_status", .str "eligible")]])]

def refundSummaryContent : String :=
  "You have 1 transaction(s) that may be eligible for refund. Let me help you with your refund request.\n\nWhat type of refund are you looking for?"

/-- `summarize_refund_node` (`refund_graph.py` lines 13–41). -/
def summarize_refund_node (s : AgentState) : AgentState :=
  let s1 := { s with refund_context := some refundContextJson,
                     current_workflow := some "refund",
                     workflow_step := some "summarized" }
  let s2 := { s1 with messages := s1.messages ++ [Msg.ai refundSummaryContent []] }
  { s2 with workflow_step := some "completed", current_workflow := none }

/-- Field access used to build the transaction summary line. -/
def jObjGetStr (v : JValue) (k dflt : String) : String :=
  match v with
  | .obj fs => match jLookup fs k with
    | some u => jRenderTop u
    | none => dflt
  | _ => dflt

/-- The summary line of `summarize_transaction_node` (numeric/date formatting
    abstracted to plain rendering; no claim inspects this text). -/
def transactionSummaryContent (t : JValue) : String :=
  "Good news: your payment of " ++ jObjGetStr t "amount" "0" ++ " "
  ++ jObjGetStr t "currency" "USD" ++ " to " ++ jObjGetStr t "merchant" "merchant"
  ++ " on " ++ jObjGetStr t "date" "" ++ " was successful.\n\nUTR: "
  ++ jObjGetStr t "reference" "N/A" ++ "\n\nTell us what is wrong"

/-- `summarize_transaction_node` (`transaction_help_graph.py` lines 14–87);
    `t` is the transaction the tool call fetched (or its fallback dict). -/
def summarize_transaction_node (s : AgentState) (t : JValue) : AgentState :=
  let s1 := { s with transaction_context := some t,
                     current_workflow := some "transaction_help",
                     workflow_step := some "summarized" }
  let s2 := { s1 with messages := s1.messages ++ [Msg.ai (transactionSummaryContent t) []] }
  { s2 with workflow_step := some "completed", current_workflow := none }

/-- The loan context dict set by `summarize_loan_node` (12.5 rendered as 12:
    floats are out of scope and the value is never read). -/
def loanContextJson : JValue :=
  .obj [("active_loans", .arr []),
        ("loan_eligibility", .obj
          [("eligible", .bool true), ("max_amount", .num 50000),
           ("interest_rate", .num 12)])]

def loanSummaryContent : String :=
  "I can help you with loan enquiries, applications, and managing your existing loans.\n\nWhat would you like to know about loans?"

/-- `summarize_loan_node` (`loan_enquiry_graph.py` lines 13–38). -/
def summarize_loan_node (s : AgentState) : AgentState :=
  let s1 := { s with loan_context := some loanContextJson,
                     current_workflow := some "loan_enquiry",
                     workflow_step := some "summarized" }
  let s2 := { s1 with messages := s1.messages ++ [Msg.ai loanSummaryContent []] }
  { s2 with workflow_step := some "completed", current_workflow := none }

/-- The card context dict set by `summarize_card_node`. -/
def cardContextJson : JValue :=
  .obj [("cards", .arr
    [.obj [("id", .str "card_1"), ("type", .str "debit"),
           ("last_four", .str "1234"), ("status", .str "active"),
           ("expiry", .str "12/26")]])]

def cardSummaryContent : String :=
  "I can see you have a debit card ending in 1234. How can I help you with your card?\n\nWhat issue are you experiencing with your card?"

/-- `summarize_card_node` (`card_issue_graph.py` lines 13–42). -/
def summarize_card_node (s : AgentState) : AgentState :=
  let s1 := { s with card_context := some cardContextJson,
                     current_workflow := some "card_issue",
                     workflow_step := some "summarized" }
  let s2 := { s1 with messages := s1.messages ++ [Msg.ai cardSummaryContent []] }
  { s2 with workflow_step := some "completed", current_workflow := none }

def generalSummaryContent : String :=
  "I am here to help! What would you like to know?\n\nHow can I assist you today?"

/-- `summarize_general_node` (`general_enquiry_graph.py` lines 13–29). -/
def summarize_general_node (s : AgentState) : AgentState :=
  let s1 := { s with current_workflow := some "general_enquiry",
                     workflow_step := some "summarized" }
  let s2 := { s1 with messages := s1.messages ++ [Msg.ai generalSummaryContent []] }
  { s2 with workflow_step := some "completed", current_workflow := none }

/-- The financial-insights context dict (`user_id` defaulted as in source). -/
def financialInsightsContextJson (s : AgentState) : JValue :=
  .obj [("user_id", .str (s.user_id.getD "demo_user")),
        ("available_categories", .arr [.str "incoming", .str "investment", .str "spends"])]

def financialInsightsSummaryContent : String :=
  "I can help you analyze your financial data! I can provide:\n\n• **Cash Flow Overview** - See a bar chart with Incoming, Investment, and Spends totals\n• **Detailed Breakdowns** - Analyze specific categories with donut charts:\n  - Incoming transactions breakdown\n  - Investment portfolio breakdown\n  - Spending patterns breakdown\n\nWhat would you like to see?"

/-- `summarize_financial_insights_node` (`financial_insights_graph.py`
    lines 13–48). -/
def summarize_financial_insights_node (s : AgentState) : AgentState :=
  let s1 := { s with financial_insights_context := some (financialInsightsContextJson s),
                     current_workflow := some "financial_insights",
                     workflow_step := some "summarized" }
  let s2 := { s1 with messages := s1.messages ++ [Msg.ai financialInsightsSummaryContent []] }
  { s2 with workflow_step := some "completed", current_workflow := none }

/-- The post-condition every guided-workflow node must establish. -/
def workflowCompleted (st : AgentState) : Prop :=
  st.current_workflow = none ∧ st.workflow_step = some "completed" ∧
  currentWorkflowActive st = false

/-- A fresh session state: empty history, no workflow. -/
def emptySession : AgentState :=
  { messages := [], current_workflow := none, workflow_step := none,
    transaction_context := none, refund_context := none, loan_context := none,
    card_context := none, financial_insights_context := none, user_id := none }

/-! ## Claim theorems -/

/-- C1: the execution stage is claimed to send exactly `transactionId` and
    `paymentMethodCode` via PATCH. In the code, the tool invokes the inner
    `execute_remittance_transaction` with keywords it does not accept (a
    `TypeError`), and the inner function itself issues a POST with a
    five-field payload to the transaction-creation endpoint — no two-field
    PATCH exists. -/
theorem thmC1_execution_contract_broken :
    pyKeywordCallOk execute_remittance_transaction_params
      execute_remittance_transaction_required execute_tool_call_kwargs = false ∧
    execute_transaction_request.method = "POST" ∧
    execute_transaction_request.method ≠ "PATCH" ∧
    execute_transaction_request.payloadKeys ≠ ["transactionId", "paymentMethodCode"] := by
  decide

/-- C2 counterexample: for the docstring example recipient and rate-lock
    `productId = 629`, the spec rule selects account `77192529`, yet quote
    generation called with the top-level id `12345` simply places `12345` in
    the gateway payload, and its outcome (error field) is identical to the
    outcome for the matching account id — no account scan, no validation
    error. -/
theorem thmC2_no_validation_counterexample :
    specSelectBeneficiaryAccount exampleRecipient 629 = some "77192529" ∧
    ((generate_remittance_quote_from_calculation "12345" "calc-1" "10-I" "SOWF" "SAL").payload.lookup
        "beneficiaryId") = some "12345" ∧
    (generate_remittance_quote_from_calculation "12345" "calc-1" "10-I" "SOWF" "SAL").error =
      (generate_remittance_quote_from_calculation "77192529" "calc-1" "10-I" "SOWF" "SAL").error := by
  decide

/-- C2 amended: quote generation performs no sub-account resolution and no
    validation — for every caller-supplied `beneficiary_id` the payload field
    `beneficiaryId` is exactly that argument, and the outcome does not depend
    on whether the id matches any recipient account. -/
theorem thmC2_beneficiary_passed_through :
    ∀ beneficiary_id calculation_id payment_method_id reason source : String,
      ((generate_remittance_quote_from_calculation beneficiary_id calculation_id
          payment_method_id reason source).payload.lookup "beneficiaryId") = some beneficiary_id ∧
      (generate_remittance_quote_from_calculation beneficiary_id calculation_id
          payment_method_id reason source).error =
        (generate_remittance_quote_from_calculation "77192529" calculation_id
          payment_method_id reason source).error := by
  intro b c p r s
  exact ⟨rfl, rfl⟩

/-- C3: `SasaiAPIClient` defines no `generate_quote` method, so the quote
    stage (here at the failing input of a valid beneficiary account id and
    calculation id) raises `AttributeError`, returns the failure dict, and
    issues no POST at all — it can never return a `transactionId`. -/
theorem thmC3_generate_quote_method_missing :
    sasaiAPIClientMethods.contains "generate_quote" = false ∧
    (generate_remittance_quote_from_calculation "77192529"
        "3cb87ef2-004f-4b74-9acb-527ffea1f512" "10-I" "SOWF" "SAL").success = false ∧
    (generate_remittance_quote_from_calculation "77192529"
        "3cb87ef2-004f-4b74-9acb-527ffea1f512" "10-I" "SOWF" "SAL").request = none := by
  decide

/-- C5: every one of the six registered guided-workflow subgraph nodes, run
    on any state, produces a state with `current_workflow` cleared to null
    and `workflow_step = "completed"`, leaving the intent-detection guard
    (`currentWorkflowActive`) off for the next turn. -/
theorem thmC5_workflow_nodes_complete :
    ∀ (s : AgentState) (t : JValue),
      workflowCompleted (summarize_transaction_node s t) ∧
      workflowCompleted (summarize_refund_node s) ∧
      workflowCompleted (summarize_loan_node s) ∧
      workflowCompleted (summarize_card_node s) ∧
      workflowCompleted (summarize_general_node s) ∧
      workflowCompleted (summarize_financial_insights_node s) := by
  intro s t
  exact ⟨⟨rfl, rfl, rfl⟩, ⟨rfl, rfl, rfl⟩, ⟨rfl, rfl, rfl⟩,
         ⟨rfl, rfl, rfl⟩, ⟨rfl, rfl, rfl⟩, ⟨rfl, rfl, rfl⟩⟩

/-- C6: on a first turn with no user messages, `detect_intent_node` appends
    the welcome message, but `route_after_intent` then routes the very same
    turn to `chat_node` (its edge map has no END target), so the chat/LLM
    node still runs — the turn is not halted as the claim (and the code's own
    comment at `graph.py` line 177) requires. -/
theorem thmC6_welcome_turn_not_halted :
    (detect_intent_node emptySession).messages = [Msg.ai welcomeContent []] ∧
    route_after_intent (detect_intent_node emptySession) = "chat_node" := by
  exact ⟨rfl, rfl⟩

/-- C8: a non-empty external token is always returned verbatim by
    `get_token`, in every manager state; and immediately after `clear_token`,
    `has_token` is false without an external token and true with one. -/
theorem thmC8_token_manager_external (st : TokenManagerState) (x : String) (hx : x ≠ "") :
    get_token st (some x) = some x ∧
    has_token (clear_token st).2 none = false ∧
    has_token (clear_token st).2 (some x) = true := by
  refine ⟨?_, ?_, ?_⟩
  · simp [get_token, truthyOpt, hx]
  · cases hE : st.enabled <;> simp [clear_token, has_token, truthyOpt, hE]
  · cases hE : st.enabled <;> simp [clear_token, has_token, truthyOpt, hx, hE]

/-- Witness for C8 at the enabled manager holding a managed token. -/
theorem thmC8_token_manager_external_witness :
    ("X" ≠ "") ∧
    (get_token ⟨true, some "managed"⟩ (some "X") = some "X" ∧
     has_token (clear_token ⟨true, some "managed"⟩).2 none = false ∧
     has_token (clear_token ⟨true, some "managed"⟩).2 (some "X") = true) :=
  ⟨by decide, thmC8_token_manager_external ⟨true, some "managed"⟩ "X" (by decide)⟩

/-- C10: routing after the chat node looks only at the first tool call of the
    last AI message — it routes to ticket confirmation exactly when that
    first call is named `create_ticket`, and to ordinary tool execution
    otherwise (even when a `create_ticket` call appears later in the list). -/
theorem thmC10_route_after_chat_first_tool (s : AgentState) (c : String)
    (tcs : List ToolCall)
    (hlast : s.messages.getLast? = some (Msg.ai c tcs)) (hne : tcs ≠ []) :
    (route_after_chat s = ChatRoute.ticketConfirmation ↔
      tcs.head?.map ToolCall.name = some "create_ticket") ∧
    (tcs.head?.map ToolCall.name ≠ some "create_ticket" →
      route_after_chat s = ChatRoute.remittanceTools) := by
  cases tcs with
  | nil => exact absurd rfl hne
  | cons tc rest =>
    unfold route_after_chat
    rw [hlast]
    by_cases h : tc.name = "create_ticket"
    · simp [h]
    · simp [h]

/-- The state used to witness C10: the last AI message carries two tool
    calls, with `create_ticket` second. -/
def chatRouteWitnessState : AgentState :=
  { emptySession with
    messages := [Msg.ai "" [⟨"1", "get_balance"⟩, ⟨"2", "create_ticket"⟩]] }

/-- Witness for C10: with `create_ticket` present but not first, the turn
    routes to ordinary tool execution — the confirmation gate is bypassed. -/
theorem thmC10_route_after_chat_first_tool_witness :
    route_after_chat chatRouteWitnessState = ChatRoute.remittanceTools ∧
    (route_after_chat chatRouteWitnessState = ChatRoute.ticketConfirmation ↔
      ([ToolCall.mk "1" "get_balance", ToolCall.mk "2" "create_ticket"].head?.map
        ToolCall.name = some "create_ticket")) := by
  have h := thmC10_route_after_chat_first_tool chatRouteWitnessState ""
    [⟨"1", "get_balance"⟩, ⟨"2", "create_ticket"⟩] rfl (by decide)
  exact ⟨h.2 (by decide), h.1⟩

/-- C4 counterexample: status 404 raises the base `SasaiAPIError` — the very
    same class raised for an unmapped status such as 418 — not a dedicated
    NotFound type (no such class exists in `core/exceptions.py`); and the
    Timeout and Network errors carry a null `status_code`. -/
theorem thmC4_notfound_counterexample :
    raisedKind (handleResponse ⟨404, "", none, none, "u"⟩ "ep") = some ErrorKind.sasaiAPIError ∧
    raisedKind (handleResponse ⟨418, "", none, none, "u"⟩ "ep") = some ErrorKind.sasaiAPIError ∧
    raisedStatus (make_authenticated_request (some "tok") true "ep" 30
      RequestOutcome.timedOut) = some none ∧
    raisedStatus (make_authenticated_request (some "tok") true "ep" 30
      (RequestOutcome.connectionFailed "refused")) = some none := by
  exact ⟨rfl, rfl, rfl, rfl⟩

/-- C4 amended: the status mapping holds as claimed for 401 (TokenExpired),
    400 (Validation with the body field), 429 (RateLimit with the parsed
    retry-after), >=500 (Server), timeouts (Timeout) and connection failures
    (Network) — but 404 raises the generic base `SasaiAPIError`, not a
    dedicated NotFound type; status-mapped errors carry `status_code` and
    `endpoint`, while Timeout/Network carry `endpoint` and a null
    `status_code`. -/
theorem thmC4_error_classification (r : HttpResponse) (ep tok detail : String)
    (tsec : Nat) :
    (r.status_code = 401 →
      raisedKind (handleResponse r ep) = some ErrorKind.tokenExpired ∧
      raisedStatus (handleResponse r ep) = some (some 401) ∧
      raisedEndpoint (handleResponse r ep) = some (some ep)) ∧
    (r.status_code = 400 →
      raisedKind (handleResponse r ep) = some (ErrorKind.validation (field400 r)) ∧
      raisedStatus (handleResponse r ep) = some (some 400) ∧
      raisedEndpoint (handleResponse r ep) = some (some ep)) ∧
    (r.status_code = 404 →
      raisedKind (handleResponse r ep) = some ErrorKind.sasaiAPIError ∧
      raisedStatus (handleResponse r ep) = some (some 404) ∧
      raisedEndpoint (handleResponse r ep) = some (some ep)) ∧
    (r.status_code = 429 →
      raisedKind (handleResponse r ep) =
        some (ErrorKind.rateLimit (r.retryAfterHeader.bind String.toInt?)) ∧
      raisedStatus (handleResponse r ep) = some (some 429) ∧
      raisedEndpoint (handleResponse r ep) = some (some ep)) ∧
    (500 ≤ r.status_code →
      raisedKind (handleResponse r ep) = some ErrorKind.server ∧
      raisedStatus (handleResponse r ep) = some (some r.status_code) ∧
      raisedEndpoint (handleResponse r ep) = some (some ep)) ∧
    (tok ≠ "" →
      raisedKind (make_authenticated_request (some tok) true ep tsec
        RequestOutcome.timedOut) = some ErrorKind.apiTimeout ∧
      raisedStatus (make_authenticated_request (some tok) true ep tsec
        RequestOutcome.timedOut) = some none ∧
      raisedEndpoint (make_authenticated_request (some tok) true ep tsec
        RequestOutcome.timedOut) = some (some ep)) ∧
    (tok ≠ "" →
      raisedKind (make_authenticated_request (some tok) true ep tsec
        (RequestOutcome.connectionFailed detail)) = some ErrorKind.network ∧
      raisedStatus (make_authenticated_request (some tok) true ep tsec
        (RequestOutcome.connectionFailed detail)) = some none ∧
      raisedEndpoint (make_authenticated_request (some tok) true ep tsec
        (RequestOutcome.connectionFailed detail)) = some (some ep)) := by
  obtain ⟨sc, tx, jb, ra, url⟩ := r
  refine ⟨?_, ?_, ?_, ?_, ?_, ?_, ?_⟩
  · intro h
    simp only [HttpResponse.status_code] at h
    subst h
    exact ⟨rfl, rfl, rfl⟩
  · intro h
    simp only [HttpResponse.status_code] at h
    subst h
    exact ⟨rfl, rfl, rfl⟩
  · intro h
    simp only [HttpResponse.status_code] at h
    subst h
    exact ⟨rfl, rfl, rfl⟩
  · intro h
    simp only [HttpResponse.status_code] at h
    subst h
    exact ⟨rfl, rfl, rfl⟩
  · intro h
    simp only [HttpResponse.status_code] at h
    unfold handleResponse
    rw [if_neg (by simp only [HttpResponse.status_code]; omega),
        if_neg (by simp only [HttpResponse.status_code]; omega),
        if_neg (by simp only [HttpResponse.status_code]; omega),
        if_neg (by simp only [HttpResponse.status_code]; omega),
        if_neg (by simp only [HttpResponse.status_code]; omega),
        if_pos (by simp only [HttpResponse.status_code]; omega)]
    exact ⟨rfl, rfl, rfl⟩
  · intro h
    unfold make_authenticated_request
    rw [if_neg (by simp [truthyOpt, h])]
    exact ⟨rfl, rfl, rfl⟩
  · intro h
    unfold make_authenticated_request
    rw [if_neg (by simp [truthyOpt, h])]
    exact ⟨rfl, rfl, rfl⟩

/-- Witness for C4: every branch of the classification instantiated at a
    concrete response — 401, a 400 with an offending field in the body, 404,
    a 429 with `retry-after: 5`, a 503, a timeout and a connection failure. -/
theorem thmC4_error_classification_witness :
    (raisedKind (handleResponse ⟨401, "", none, none, "u"⟩ "ep") = some ErrorKind.tokenExpired ∧
     raisedStatus (handleResponse ⟨401, "", none, none, "u"⟩ "ep") = some (some 401) ∧
     raisedEndpoint (handleResponse ⟨401, "", none, none, "u"⟩ "ep") = some (some "ep")) ∧
    (raisedKind (handleResponse ⟨400, "e", some (.obj [("field", .str "amount")]), none, "u"⟩ "ep")
       = some (ErrorKind.validation (field400 ⟨400, "e", some (.obj [("field", .str "amount")]), none, "u"⟩)) ∧
     raisedStatus (handleResponse ⟨400, "e", some (.obj [("field", .str "amount")]), none, "u"⟩ "ep")
       = some (some 400)) ∧
    (raisedKind (handleResponse ⟨404, "", none, none, "u"⟩ "ep") = some ErrorKind.sasaiAPIError ∧
     raisedStatus (handleResponse ⟨404, "", none, none, "u"⟩ "ep") = some (some 404)) ∧
    (raisedKind (handleResponse ⟨429, "", none, some "5", "u"⟩ "ep")
       = some (ErrorKind.rateLimit ((some "5").bind String.toInt?))) ∧
    (raisedKind (handleResponse ⟨503, "", none, none, "u"⟩ "ep") = some ErrorKind.server ∧
     raisedStatus (handleResponse ⟨503, "", none, none, "u"⟩ "ep") = some (some 503) ∧
     raisedEndpoint (handleResponse ⟨503, "", none, none, "u"⟩ "ep") = some (some "ep")) ∧
    (raisedKind (make_authenticated_request (some "tok") true "ep" 30
       RequestOutcome.timedOut) = some ErrorKind.apiTimeout ∧
     raisedStatus (make_authenticated_request (some "tok") true "ep" 30
       RequestOutcome.timedOut) = some none ∧
     raisedEndpoint (make_authenticated_request (some "tok") true "ep" 30
       RequestOutcome.timedOut) = some (some "ep")) ∧
    (raisedKind (make_authenticated_request (some "tok") true "ep" 30
       (RequestOutcome.connectionFailed "refused")) = some ErrorKind.network ∧
     raisedStatus (make_authenticated_request (some "tok") true "ep" 30
       (RequestOutcome.connectionFailed "refused")) = some none ∧
     raisedEndpoint (make_authenticated_request (some "tok") true "ep" 30
       (RequestOutcome.connectionFailed "refused")) = some (some "ep")) := by
  have h401 := thmC4_error_classification ⟨401, "", none, none, "u"⟩ "ep" "tok" "x" 30
  have h400 := thmC4_error_classification
    ⟨400, "e", some (.obj [("field", .str "amount")]), none, "u"⟩ "ep" "tok" "x" 30
  have h404 := thmC4_error_classification ⟨404, "", none, none, "u"⟩ "ep" "tok" "x" 30
  have h429 := thmC4_error_classification ⟨429, "", none, some "5", "u"⟩ "ep" "tok" "x" 30
  have h503 := thmC4_error_classification ⟨503, "", none, none, "u"⟩ "ep" "tok" "x" 30
  refine ⟨h401.1 rfl, ?_, ?_, ?_, h503.2.2.2.2.1 (by decide),
          h503.2.2.2.2.2.1 (by decide), h503.2.2.2.2.2.2 (by decide)⟩
  · exact ⟨(h400.2.1 rfl).1, (h400.2.1 rfl).2.1⟩
  · exact ⟨(h404.2.2.1 rfl).1, (h404.2.2.1 rfl).2.1⟩
  · exact (h429.2.2.2.1 rfl).1

/-- C9: every 2xx gateway response produces the success envelope — no error —
    with `success = true`, the response status, and data normalized to the
    parsed JSON body, or null for an empty/whitespace body, or a
    message-wrapped raw text for a non-JSON body. -/
theorem thmC9_success_envelope (r : HttpResponse) (ep : String)
    (h1 : 200 ≤ r.status_code) (h2 : r.status_code < 300) :
    ∃ env : Envelope, handleResponse r ep = .ok env ∧ env.success = true ∧
      env.status_code = r.status_code ∧
      (pyStrip r.text = "" → env.data = JValue.null) ∧
      (pyStrip r.text ≠ "" → ∀ v, r.jsonBody = some v → env.data = v) ∧
      (pyStrip r.text ≠ "" → r.jsonBody = none →
        env.data = JValue.obj [("message", JValue.str r.text)]) := by
  unfold handleResponse
  rw [if_pos ⟨h1, h2⟩]
  refine ⟨_, rfl, rfl, rfl, ?_, ?_, ?_⟩
  · intro he
    simp [he]
  · intro hne v hv
    simp [hne, hv]
  · intro hne hv
    simp [hne, hv]

/-- The concrete 204 empty-body response used to witness C9. -/
def emptyNoContentResp : HttpResponse := ⟨204, "", none, none, "u"⟩

/-- Witness for C9 at a 204 No Content response. -/
theorem thmC9_success_envelope_witness :
    (200 ≤ emptyNoContentResp.status_code ∧ emptyNoContentResp.status_code < 300) ∧
    (∃ env : Envelope, handleResponse emptyNoContentResp "ep" = .ok env ∧
      env.success = true ∧
      env.status_code = emptyNoContentResp.status_code ∧
      (pyStrip emptyNoContentResp.text = "" → env.data = JValue.null) ∧
      (pyStrip emptyNoContentResp.text ≠ "" →
        ∀ v, emptyNoContentResp.jsonBody = some v → env.data = v) ∧
      (pyStrip emptyNoContentResp.text ≠ "" → emptyNoContentResp.jsonBody = none →
        env.data = JValue.obj [("message", JValue.str emptyNoContentResp.text)])) :=
  ⟨⟨by decide, by decide⟩,
   thmC9_success_envelope emptyNoContentResp "ep" (by decide) (by decide)⟩

/-! ### Regex-pattern lemmas for the ticket flow -/

lemma prefixOf_append_right (p l r : List Char) (h : p.isPrefixOf l = true) :
    p.isPrefixOf (l ++ r) = true := by
  rw [List.isPrefixOf_iff_prefix] at h ⊢
  exact h.trans (List.prefix_append l r)

lemma prefixOf_self_append (p r : List Char) : p.isPrefixOf (p ++ r) = true := by
  rw [List.isPrefixOf_iff_prefix]
  exact List.prefix_append p r

lemma ticketMatchAt_drop (l : List Char) (h : ticketMatchAt l = true) :
    ∃ c cs, l.drop 7 = c :: cs ∧ c.isDigit = true := by
  unfold ticketMatchAt at h
  rw [Bool.and_eq_true] at h
  obtain ⟨_, h2⟩ := h
  cases hd : l.drop 7 with
  | nil => rw [hd] at h2; exact absurd h2 (by simp)
  | cons c cs => rw [hd] at h2; exact ⟨c, cs, rfl, h2⟩

lemma ticketMatchAt_head (l : List Char) (h : ticketMatchAt l = true) :
    ticketHeadChars.isPrefixOf l = true := by
  unfold ticketMatchAt at h
  exact (Bool.and_eq_true _ _ ▸ h).1

lemma ticketMatchAt_length (l : List Char) (h : ticketMatchAt l = true) :
    7 ≤ l.length := by
  obtain ⟨c, cs, hd, _⟩ := ticketMatchAt_drop l h
  by_contra hc
  push_neg at hc
  have hnil : l.drop 7 = [] := List.drop_eq_nil_of_le (by omega)
  rw [hnil] at hd
  exact List.noConfusion hd

lemma ticketMatchAt_append (t b : List Char) (h : ticketMatchAt t = true) :
    ticketMatchAt (t ++ b) = true := by
  obtain ⟨c, cs, hd, hdig⟩ := ticketMatchAt_drop t h
  unfold ticketMatchAt
  rw [Bool.and_eq_true]
  refine ⟨prefixOf_append_right _ _ _ (ticketMatchAt_head t h), ?_⟩
  rw [List.drop_append_of_le_length (ticketMatchAt_length t h), hd]
  simpa using hdig

lemma takeTicket_matches (l : List Char) (h : ticketMatchAt l = true) :
    ticketMatchAt (ticketHeadChars ++ takeDigits (l.drop 7)) = true := by
  obtain ⟨c, cs, hd, hdig⟩ := ticketMatchAt_drop l h
  unfold ticketMatchAt
  rw [Bool.and_eq_true]
  refine ⟨prefixOf_self_append _ _, ?_⟩
  rw [hd]
  have hdl : (ticketHeadChars ++ takeDigits (c :: cs)).drop 7 = takeDigits (c :: cs) := by
    have h7 : ticketHeadChars.length = 7 := rfl
    rw [← h7, List.drop_left]
  rw [hdl]
  simp [takeDigits, hdig]

lemma hasPattern_append_right (x y : List Char) (h : hasTicketPattern y = true) :
    hasTicketPattern (x ++ y) = true := by
  induction x with
  | nil => simpa using h
  | cons c cs ih => simp [hasTicketPattern, ih]

lemma hasPattern_of_matchAt (t b : List Char) (h : ticketMatchAt t = true) :
    hasTicketPattern (t ++ b) = true := by
  cases t with
  | nil => exact absurd h (by decide)
  | cons c cs =>
    have hm := ticketMatchAt_append (c :: cs) b h
    rw [List.cons_append] at hm ⊢
    simp [hasTicketPattern, hm]

lemma extract_of_hasPattern (l : List Char) (h : hasTicketPattern l = true) :
    ∃ t, extractTicketMatch l = some t ∧ ticketMatchAt t = true := by
  induction l with
  | nil => simp [hasTicketPattern] at h
  | cons c cs ih =>
    by_cases hm : ticketMatchAt (c :: cs) = true
    · exact ⟨_, by simp [extractTicketMatch, hm], takeTicket_matches (c :: cs) hm⟩
    · rw [Bool.not_eq_true] at hm
      have h' : hasTicketPattern cs = true := by
        simpa [hasTicketPattern, hm] using h
      obtain ⟨t, he, hmt⟩ := ih h'
      exact ⟨t, by simp [extractTicketMatch, hm, he], hmt⟩

/-- The fixed prefix of the ticket success message. -/
def successPrefixText : String :=
  "✅ Your support request has been successfully submitted!\n\n📋 Ticket ID: "

/-- The fixed suffix of the ticket success message. -/
def successSuffixText : String :=
  "\n\nPlease save this ticket ID for your records. You can use it to track the status of your request. Our support team will review your request and get back to you shortly. Is there anything else I can help you with?"

lemma successContent_eq (ticketId : String) :
    successContent ticketId = successPrefixText ++ ticketId ++ successSuffixText := rfl

lemma successContent_hasPattern (t : List Char) (hm : ticketMatchAt t = true) :
    hasTicketPattern (successContent (String.mk t)).data = true := by
  rw [successContent_eq, String.data_append, String.data_append]
  have hmk : (String.mk t).data = t := rfl
  rw [hmk, List.append_assoc]
  exact hasPattern_append_right _ _ (hasPattern_of_matchAt t _ hm)

/-- C7: after the ticket-confirmation interrupt, a CONFIRM-prefixed resume
    routes to `perform_ticket`, which executes the held `create_ticket` call
    and appends a success message containing an identifier matching
    `TICKET-` + digits (given a tool result containing the pattern, as the
    repository's `create_ticket` tool produces); the exact resume `CANCEL`
    routes to `perform_ticket`, which appends only the cancellation message
    and performs no tool call; any other resume ends the turn with no
    execution. -/
theorem thmC7_ticket_confirmation_flow
    (s : AgentState) (tid tname resume : String) (tc : ToolCall) (r : String)
    (hlast : s.messages.getLast? = some (Msg.toolMsg tid tname resume))
    (hTM : lastToolMsgContent s.messages = some resume)
    (hAI : (lastAIWithToolCalls s.messages).isSome = true)
    (hTC : findCreateTicketCall s.messages = some tc)
    (hr : hasTicketPattern r.data = true) (hrne : r ≠ "") :
    (pyStartsWith resume "CONFIRM" = true →
      route_after_confirmation s = ConfirmRoute.performTicket ∧
      (perform_ticket_node s r).2 = true ∧
      ∃ tkt, (perform_ticket_node s r).1.messages =
          s.messages ++ [Msg.toolMsg tc.id "create_ticket" r,
                         Msg.ai (successContent tkt) []] ∧
        hasTicketPattern (successContent tkt).data = true) ∧
    (resume = "CANCEL" →
      route_after_confirmation s = ConfirmRoute.performTicket ∧
      (perform_ticket_node s r).1.messages = s.messages ++ [Msg.ai cancelContent []] ∧
      (perform_ticket_node s r).2 = false) ∧
    (resume ≠ "CONFIRM" → resume ≠ "CANCEL" → pyStartsWith resume "CONFIRM" = false →
      route_after_confirmation s = ConfirmRoute.finish) := by
  obtain ⟨m, hm⟩ := Option.isSome_iff_exists.mp hAI
  refine ⟨?_, ?_, ?_⟩
  · intro hp
    have hnc : resume ≠ "CANCEL" := by
      intro he
      rw [he] at hp
      exact absurd hp (by decide)
    obtain ⟨t, he, hmt⟩ := extract_of_hasPattern r.data hr
    refine ⟨?_, ?_, ?_⟩
    · unfold route_after_confirmation
      rw [hlast]
      exact if_pos (Or.inr (Or.inr hp))
    · unfold perform_ticket_node
      rw [hTM, hm, hTC]
      simp only [if_neg hnc, if_pos (Or.inr hp), if_neg hrne, he]
    · refine ⟨String.mk t, ?_, successContent_hasPattern t hmt⟩
      unfold perform_ticket_node
      rw [hTM, hm, hTC]
      simp only [if_neg hnc, if_pos (Or.inr hp), if_neg hrne, he]
  · intro hc
    refine ⟨?_, ?_, ?_⟩
    · unfold route_after_confirmation
      rw [hlast]
      exact if_pos (Or.inr (Or.inl hc))
    · unfold perform_ticket_node
      rw [hTM, hm]
      simp only [if_pos hc]
    · unfold perform_ticket_node
      rw [hTM, hm]
      simp only [if_pos hc]
  · intro h1 h2 h3
    unfold route_after_confirmation
    rw [hlast]
    refine if_neg ?_
    intro hor
    rcases hor with h | h | h
    · exact h1 h
    · exact h2 h
    · rw [h3] at h
      exact Bool.noConfusion h

/-- The state used to witness C7: a held `create_ticket` call followed by the
    resume message `CONFIRM`. -/
def ticketWitnessState : AgentState :=
  { emptySession with
    messages := [Msg.ai "Please confirm the ticket." [⟨"call1", "create_ticket"⟩],
                 Msg.toolMsg "call1" "create_ticket" "CONFIRM"] }

/-- Witness for C7: the CONFIRM resume at the repository's own
    `create_ticket` tool output for ticket number 12345. -/
theorem thmC7_ticket_confirmation_flow_witness :
    pyStartsWith "CONFIRM" "CONFIRM" = true ∧
    (route_after_confirmation ticketWitnessState = ConfirmRoute.performTicket ∧
     (perform_ticket_node ticketWitnessState (create_ticket_result 12345)).2 = true ∧
     ∃ tkt, (perform_ticket_node ticketWitnessState (create_ticket_result 12345)).1.messages =
         ticketWitnessState.messages ++
           [Msg.toolMsg "call1" "create_ticket" (create_ticket_result 12345),
            Msg.ai (successContent tkt) []] ∧
       hasTicketPattern (successContent tkt).data = true) := by
  refine ⟨by decide, ?_⟩
  have h := thmC7_ticket_confirmation_flow ticketWitnessState "call1" "create_ticket"
    "CONFIRM" ⟨"call1", "create_ticket"⟩ (create_ticket_result 12345) rfl (by decide)
    (by decide) (by decide) (by decide) (by decide)
  exact h.1 (by decide)

end Remit
